import Mathlib

/-!
Shallow embedding of the NewsNinja aggregation pipeline
(backend.py, utils.py, free_news_scraper.py) and proofs about it.

External effects (HTTP fetches, the Gemini LLM, text-to-speech) are modelled
as oracle parameters: an `Option`/`Except` value stands for "the call returned
this value" or "the call raised".  Python dicts whose keys are the request
topics are modelled as association lists `List (String × String)`; Python
truthiness of a possibly-empty dict is modelled with `Option`.
-/

namespace NewsNinja

/-! ## Content normalizer: `utils.extract_headlines` -/

/-- Python `str.strip()` whitespace set. -/
def pyIsSpace (c : Char) : Bool :=
  c = ' ' || c = '\t' || c = '\n' || c = '\r' || c = '\x0b' || c = '\x0c'

/-- Python `str.strip()`: drop leading and trailing whitespace. -/
def pyStrip (l : List Char) : List Char :=
  ((l.dropWhile pyIsSpace).reverse.dropWhile pyIsSpace).reverse

/-- Python `str.split('\n')`: split on every newline character. -/
def splitNL : List Char → List (List Char)
  | [] => [[]]
  | c :: cs =>
    if c = '\n' then [] :: splitNL cs
    else
      match splitNL cs with
      | [] => [[c]]
      | h :: t => (c :: h) :: t

/-- The sentinel line emitted by the content provider's "show more" artifact. -/
def sentinel : List Char := "More".data

/-- `lines = [line.strip() for line in cleaned_text.split('\n') if line.strip()]` -/
def cleanLines (s : List Char) : List (List Char) :=
  ((splitNL s).map pyStrip).filter (fun l => !l.isEmpty)

/-- The loop of `extract_headlines`: accumulate lines into `block`; on the
sentinel emit the first line of a non-empty block and reset; flush the first
line of any trailing block at end of input. -/
def processLines : List (List Char) → List (List Char) → List (List Char)
  | [], block =>
    match block with
    | [] => []
    | b :: _ => [b]
  | l :: rest, block =>
    if l = sentinel then
      match block with
      | [] => processLines rest []
      | b :: _ => b :: processLines rest []
    else processLines rest (block ++ [l])

/-- Python `'\n'.join`. -/
def joinNLChars : List (List Char) → List Char
  | [] => []
  | [l] => l
  | l :: ls => l ++ '\n' :: joinNLChars ls

/-- `utils.extract_headlines`: strip and drop empty lines, segment into blocks
at the sentinel, emit the first line of each block, join with newlines. -/
def extract_headlines (s : String) : String :=
  ⟨joinNLChars (processLines (cleanLines s.data) [])⟩

/-- The list of headlines `extract_headlines` joins together. -/
def headlineList (s : String) : List (List Char) :=
  processLines (cleanLines s.data) []

/-! ## String helpers shared by the embedding -/

/-- Python `sep.join(xs)`. -/
def pyJoin (sep : String) : List String → String
  | [] => ("")
  | [x] => x
  | x :: xs => x ++ sep ++ pyJoin sep xs

/-- Python `needle in hay` / substring occurrence, on character lists. -/
def occursIn (n h : List Char) : Prop := ∃ p q, h = p ++ n ++ q

/-- Python `s.startswith(pat)`, on character lists (first argument: pattern). -/
def pyStartsWith : List Char → List Char → Bool
  | [], _ => true
  | _ :: _, [] => false
  | p :: ps, c :: cs => p = c && pyStartsWith ps cs

theorem data_append (a b : String) : (a ++ b).data = a.data ++ b.data := by
  cases a
  cases b
  rfl

theorem occursIn_self (n : List Char) : occursIn n n := ⟨[], [], by simp⟩

theorem occursIn_append_left (x n h : List Char) (ho : occursIn n h) :
    occursIn n (x ++ h) := by
  obtain ⟨p, q, rfl⟩ := ho
  exact ⟨x ++ p, q, by simp⟩

theorem occursIn_append_right (x n h : List Char) (ho : occursIn n h) :
    occursIn n (h ++ x) := by
  obtain ⟨p, q, rfl⟩ := ho
  exact ⟨p, q ++ x, by simp⟩

theorem occursIn_pyJoin (sep t : String) (ts : List String) (ht : t ∈ ts) :
    occursIn t.data (pyJoin sep ts).data := by
  induction ts with
  | nil => cases ht
  | cons x xs ih =>
    rcases List.mem_cons.mp ht with rfl | hmem
    · cases xs with
      | nil => exact occursIn_self t.data
      | cons y ys =>
        rw [show pyJoin sep (t :: y :: ys) = t ++ sep ++ pyJoin sep (y :: ys) from rfl,
          data_append, data_append, List.append_assoc]
        exact ⟨[], sep.data ++ (pyJoin sep (y :: ys)).data, rfl⟩
    · cases xs with
      | nil => cases hmem
      | cons y ys =>
        rw [show pyJoin sep (x :: y :: ys) = x ++ sep ++ pyJoin sep (y :: ys) from rfl,
          data_append, data_append, List.append_assoc]
        exact occursIn_append_left _ _ _ (occursIn_append_left _ _ _ (ih hmem))

/-! ## Data model: scraped datasets (dicts keyed by topic) -/

/-- Result wrapper returned by every content scraper: `{"news_analysis": {...}}`. -/
structure NewsResult where
  news_analysis : List (String × String)
deriving DecidableEq, Repr

/-- Result wrapper returned by the discussion scraper: `{"reddit_analysis": {...}}`. -/
structure RedditResult where
  reddit_analysis : List (String × String)
deriving DecidableEq, Repr

/-! ## Summarizer: `utils.generate_broadcast_news`

The Gemini call is an oracle `llm : String → Option String`; `none` models the
call raising.  `news_data`/`reddit_data` are `Option` wrappers: `none` models a
falsy (empty) dict, matching `results.get(..., {})` at the call site. -/

/-- The error-marker test: `news_content.startswith("Error:")`. -/
def isErrMarker (s : String) : Bool := pyStartsWith ("Error:").data s.data

/-- Raw content text for one topic: `news_data["news_analysis"].get(topic, "")`
(the falsy-dict case contributes the empty string). -/
def rawNewsText (news_data : Option NewsResult) (topic : String) : String :=
  match news_data with
  | none => ("")
  | some nd => (nd.news_analysis.lookup topic).getD ("")

/-- Content text for one topic after the error-marker filter:
`if news_content.startswith("Error:"): news_content = ""`. -/
def topicNewsText (news_data : Option NewsResult) (topic : String) : String :=
  if isErrMarker (rawNewsText news_data topic) then ("")
  else rawNewsText news_data topic

/-- Discussion text for one topic: `reddit_data["reddit_analysis"].get(topic, "")`. -/
def topicRedditText (reddit_data : Option RedditResult) (topic : String) : String :=
  match reddit_data with
  | none => ("")
  | some rd => (rd.reddit_analysis.lookup topic).getD ("")

/-- The `context` list built for one topic. -/
def topicContext (news_data : Option NewsResult) (reddit_data : Option RedditResult)
    (topic : String) : List String :=
  (if topicNewsText news_data topic ≠ ("") then
      [("OFFICIAL NEWS CONTENT:\n") ++ topicNewsText news_data topic] else []) ++
  (if topicRedditText reddit_data topic ≠ ("") then
      [("REDDIT DISCUSSION CONTENT:\n") ++ topicRedditText reddit_data topic] else [])

/-- The per-topic block appended to `topic_blocks`: either the context joined
with blank lines, or the explicit limited-data paragraph. -/
def buildTopicBlock (news_data : Option NewsResult) (reddit_data : Option RedditResult)
    (topic : String) : String :=
  let context := topicContext news_data reddit_data topic
  if context ≠ [] then
    ("TOPIC: ") ++ topic ++ ("\n\n") ++ pyJoin ("\n\n") context
  else
    ("TOPIC: ") ++ topic ++
      ("\n\nLIMITED DATA: No current news or Reddit data available for this topic.")

/-- The user prompt: joined topic blocks, or the no-topics fallback prompt. -/
def userPrompt (news_data : Option NewsResult) (reddit_data : Option RedditResult)
    (topics : List String) : String :=
  let topic_blocks := topics.map (buildTopicBlock news_data reddit_data)
  if topic_blocks = [] then
    ("Create a brief news segment explaining that current data for topics ") ++
      pyJoin (", ") topics ++
      (" is temporarily unavailable, but provide general context about why these topics are newsworthy.")
  else
    ("Create broadcast segments for these topics using available sources:\n\n") ++
      pyJoin ("\n\n--- NEW TOPIC ---\n\n") topic_blocks

/-- The fixed style directive sent with every summarization request. -/
def systemPrompt : String :=
  ("You are broadcast_news_writer, a professional virtual news reporter. Generate natural, TTS-ready news reports using available sources. For each topic, STRUCTURE BASED ON AVAILABLE DATA. ALWAYS start directly with the content, NO INTRODUCTIONS. Write in full paragraphs optimized for speech synthesis. Avoid markdown.")

/-- `full_prompt = f"{system_prompt}\n\n{user_prompt}"`. -/
def fullPrompt (news_data : Option NewsResult) (reddit_data : Option RedditResult)
    (topics : List String) : String :=
  systemPrompt ++ ("\n\n") ++ userPrompt news_data reddit_data topics

/-- The deterministic fallback script returned when the Gemini call raises. -/
def fallbackScript (topics : List String) : String :=
  ("Welcome to your news update. Today we\x27re covering ") ++ pyJoin (", ") topics ++
    (". Unfortunately, we\x27re experiencing technical difficulties accessing current news data. Please check back later for updated information on these important topics.")

/-- `utils.generate_broadcast_news`: build the prompt, call the LLM, and on any
LLM failure return the deterministic fallback script. -/
def generate_broadcast_news (llm : String → Option String)
    (news_data : Option NewsResult) (reddit_data : Option RedditResult)
    (topics : List String) : String :=
  match llm (fullPrompt news_data reddit_data topics) with
  | some s => s
  | none => fallbackScript topics

/-! ## Free content provider: `free_news_scraper.FreeNewsScraper`

`scrape_news` consults per-topic oracles: `fetch` gives the NewsAPI HTTP
outcome for one topic, `gemini` gives the outcome of
`summarize_with_gemini_news_script` (`Except.error` models the
`HTTPException` it raises, caught by the per-topic handler). -/

/-- One NewsAPI article; a missing field is the empty string (`.get(..., '')`). -/
structure Article where
  title : String
  description : String
deriving DecidableEq, Repr

/-- Outcome of the NewsAPI request for one topic. -/
inductive FetchOutcome where
  | success (articles : List Article)
  | rateLimited
  | httpError (code : Nat)
  | exn (msg : String)
deriving DecidableEq, Repr

/-- `f"{title}. {description}" if description else title`. -/
def articleLine (a : Article) : String :=
  if a.description ≠ ("") then a.title ++ (". ") ++ a.description else a.title

/-- The combined headline text: articles with a non-empty title, one per line. -/
def headlinesText (articles : List Article) : String :=
  pyJoin ("\n") ((articles.filter (fun a => a.title ≠ (""))).map articleLine)

/-- The body of the per-topic loop of `FreeNewsScraper.scrape_news`: every
branch stores a string for the topic, and the catch-all handler turns any
exception into an `"Error: ..."` stub. -/
def scrapeTopic (gemini : String → Except String String) (outcome : FetchOutcome)
    (topic : String) : String :=
  match outcome with
  | .success articles =>
    if articles ≠ [] then
      match gemini (headlinesText articles) with
      | .ok summary => summary
      | .error e => ("Error: ") ++ e
    else ("No recent news found for ") ++ topic
  | .rateLimited => ("Rate limit exceeded for ") ++ topic ++ (" news")
  | .httpError _ => ("Error fetching ") ++ topic ++ (" news")
  | .exn msg => ("Error: ") ++ msg

/-- The mock paragraph `_create_mock_news` generates for one topic. -/
def mockNewsText (topic : String) : String :=
  ("Recent developments in ") ++ topic ++
    (" continue to evolve. Industry experts are monitoring the situation closely as new information becomes available.")

/-- `FreeNewsScraper._create_mock_news`. -/
def createMockNews (topics : List String) : NewsResult :=
  ⟨topics.map (fun t => (t, mockNewsText t))⟩

/-- `FreeNewsScraper.scrape_news`: with no API key return mock data without
touching the network; otherwise process every topic with the per-topic loop. -/
def scrape_news (apiKey : Option String) (fetch : String → FetchOutcome)
    (gemini : String → Except String String) (topics : List String) : NewsResult :=
  match apiKey with
  | none => createMockNews topics
  | some _ => ⟨topics.map (fun t => (t, scrapeTopic gemini (fetch t) t))⟩

/-! ## Fallback orchestrator: `backend.get_news_data` and
`backend.generate_news_audio`

Environment-variable presence is a record of booleans (Python truthiness of
`os.getenv`).  The two content scrapers and the Reddit scraper are oracles:
`none` models the call raising. -/

/-- Presence of each environment variable the backend consults. -/
structure Env where
  brightdataApiKey : Bool
  brightdataZone : Bool
  newsapiKey : Bool
  apiToken : Bool
  webUnlockerZone : Bool
  geminiApiKey : Bool
deriving DecidableEq, Repr

/-- The content providers, in priority order. -/
inductive Provider where
  | brightdata
  | newsapi
deriving DecidableEq, Repr

/-- `backend.get_news_data`, instrumented: the second component records which
providers were actually invoked, in order.  BrightData is tried first when
both of its variables are set; on failure control falls through to NewsAPI
when its key is set; exhaustion raises HTTP 503. -/
def get_news_data (env : Env) (bd na : Option NewsResult) :
    Except Nat NewsResult × List Provider :=
  if env.brightdataApiKey && env.brightdataZone then
    match bd with
    | some d => (Except.ok d, [Provider.brightdata])
    | none =>
      if env.newsapiKey then
        match na with
        | some d => (Except.ok d, [Provider.brightdata, Provider.newsapi])
        | none => (Except.error 503, [Provider.brightdata, Provider.newsapi])
      else (Except.error 503, [Provider.brightdata])
  else
    if env.newsapiKey then
      match na with
      | some d => (Except.ok d, [Provider.newsapi])
      | none => (Except.error 503, [Provider.newsapi])
    else (Except.error 503, [])

/-- Source-selection mode of a request. -/
inductive SourceType where
  | news
  | reddit
  | both
deriving DecidableEq, Repr

/-- The data-collection phase of `backend.generate_news_audio`: collect news
(an exception from `get_news_data` propagates), collect Reddit (an exception
is absorbed into an empty dict), then raise 503 when both collected dicts are
falsy.  `none` in the result models a falsy (absent or empty) dict. -/
def collectData (st : SourceType) (env : Env) (bd na : Option NewsResult)
    (reddit : Option RedditResult) :
    Except Nat (Option NewsResult × Option RedditResult) :=
  let newsStep : Except Nat (Option NewsResult) :=
    if st = SourceType.news ∨ st = SourceType.both then
      match (get_news_data env bd na).fst with
      | Except.ok d => Except.ok (some d)
      | Except.error e => Except.error e
    else Except.ok none
  match newsStep with
  | Except.error e => Except.error e
  | Except.ok newsData =>
    let redditData : Option RedditResult :=
      if st = SourceType.reddit ∨ st = SourceType.both then reddit else none
    if newsData = none ∧ redditData = none then Except.error 503
    else Except.ok (newsData, redditData)

/-- The full `/generate-news-audio` handler: collect data, summarize, render
audio; the outer `except` turns any raised exception (including the
`HTTPException`s above) into an HTTP 500.  `ttsOk` models whether
`tts_to_audio` produced a readable file. -/
def generate_news_audio (st : SourceType) (env : Env) (bd na : Option NewsResult)
    (reddit : Option RedditResult) (llm : String → Option String) (ttsOk : Bool)
    (topics : List String) : Except Nat String :=
  let inner : Except Nat String :=
    match collectData st env bd na reddit with
    | Except.error e => Except.error e
    | Except.ok (newsData, redditData) =>
      let script := generate_broadcast_news llm newsData redditData topics
      if script = ("") then Except.error 500
      else if ttsOk then Except.ok script
      else Except.error 500
  match inner with
  | Except.ok s => Except.ok s
  | Except.error _ => Except.error 500

/-! ## Status query: `backend.health_check` -/

/-- The fields of the health-check response the claims are about. -/
structure HealthReport where
  status : String
  newsSource : String
  features : List String
deriving DecidableEq, Repr

/-- `backend.health_check`: detect the configured news source with an
`if/elif/else` chain, append optional features, and report `healthy` exactly
when a news source is configured. -/
def health_check (env : Env) : HealthReport :=
  let pair : String × String :=
    if env.brightdataApiKey && env.brightdataZone then
      (("brightdata"), ("real_news_brightdata"))
    else if env.newsapiKey then (("newsapi"), ("real_news_newsapi"))
    else (("none_configured"), ("no_news_source"))
  let features :=
    [pair.snd] ++
      (if env.apiToken && env.webUnlockerZone then [("reddit_scraping")] else []) ++
      (if env.geminiApiKey then [("gemini_ai")] else [])
  { status := if pair.fst ≠ ("none_configured") then ("healthy") else ("degraded"),
    newsSource := pair.fst,
    features := features }

/-! ## Lemmas about the content normalizer -/

theorem processLines_nil_nil : processLines [] [] = [] := rfl

theorem processLines_nil_cons (b : List Char) (bs : List (List Char)) :
    processLines [] (b :: bs) = [b] := rfl

theorem processLines_sentinel_nil (ls : List (List Char)) :
    processLines (sentinel :: ls) [] = processLines ls [] := by
  simp [processLines]

theorem processLines_sentinel_cons (ls : List (List Char)) (b : List Char)
    (bs : List (List Char)) :
    processLines (sentinel :: ls) (b :: bs) = b :: processLines ls [] := by
  simp [processLines]

theorem processLines_other (l : List Char) (ls block : List (List Char))
    (hl : l ≠ sentinel) :
    processLines (l :: ls) block = processLines ls (block ++ [l]) := by
  simp [processLines, hl]

theorem processLines_mem (rest : List (List Char)) :
    ∀ block h, h ∈ processLines rest block → h ∈ block ∨ (h ∈ rest ∧ h ≠ sentinel) := by
  induction rest with
  | nil =>
    intro block h hm
    cases block with
    | nil =>
      rw [processLines_nil_nil] at hm
      cases hm
    | cons b bs =>
      rw [processLines_nil_cons, List.mem_singleton] at hm
      exact Or.inl (hm ▸ List.mem_cons_self _ _)
  | cons l ls ih =>
    intro block h hm
    by_cases hl : l = sentinel
    · subst hl
      cases block with
      | nil =>
        rw [processLines_sentinel_nil] at hm
        rcases ih [] h hm with h0 | ⟨h1, h2⟩
        · cases h0
        · exact Or.inr ⟨List.mem_cons_of_mem _ h1, h2⟩
      | cons b bs =>
        rw [processLines_sentinel_cons, List.mem_cons] at hm
        rcases hm with hm1 | hm2
        · exact Or.inl (hm1 ▸ List.mem_cons_self _ _)
        · rcases ih [] h hm2 with h0 | ⟨h1, h2⟩
          · cases h0
          · exact Or.inr ⟨List.mem_cons_of_mem _ h1, h2⟩
    · rw [processLines_other l ls block hl] at hm
      rcases ih (block ++ [l]) h hm with h0 | ⟨h1, h2⟩
      · rcases List.mem_append.mp h0 with hb | hb
        · exact Or.inl hb
        · rw [List.mem_singleton] at hb
          exact Or.inr ⟨hb ▸ List.mem_cons_self _ _, hb ▸ hl⟩
      · exact Or.inr ⟨List.mem_cons_of_mem _ h1, h2⟩

/-! ## The claims -/

/-- C6: headline extraction on the input `"H1\nH1b\nMore\nH2\nMore\nMore"`
returns `"H1\nH2"`: each sentinel line emits the first line of the accumulated
block and resets it, a sentinel arriving with an empty block emits nothing,
and the trailing non-empty block is flushed. -/
theorem c6_extract_headlines_example :
    extract_headlines ("H1\nH1b\nMore\nH2\nMore\nMore") = ("H1\nH2") := by decide

/-- C9: every headline emitted by `extract_headlines` is a stripped, non-empty,
non-sentinel line of the input: blank lines are discarded before block
processing and sentinel lines are consumed rather than accumulated, so the
output contains no empty line and no line equal to `"More"`. -/
theorem c9_headlines_clean (s : String) (h : List Char) (hm : h ∈ headlineList s) :
    h ≠ [] ∧ h ≠ sentinel ∧ h ∈ (splitNL s.data).map pyStrip := by
  rcases processLines_mem (cleanLines s.data) [] h hm with h0 | ⟨h1, h2⟩
  · cases h0
  · have hf := List.mem_filter.mp h1
    refine ⟨?_, h2, hf.1⟩
    intro he
    subst he
    simp at hf

/-- Witness for C9 at a concrete input. -/
theorem c9_witness :
    ("A").data ∈ headlineList ("A\nMore") ∧
      (("A").data ≠ [] ∧ ("A").data ≠ sentinel ∧
        ("A").data ∈ (splitNL ("A\nMore").data).map pyStrip) :=
  ⟨by decide, c9_headlines_clean ("A\nMore") (("A").data) (by decide)⟩

/-- C5: when the LLM call raises, the summarizer still returns (it never
raises: it is total here, the `except` branch is the fallback), and the result
is the deterministic fallback script, which is non-empty and mentions every
requested topic. -/
theorem c5_summarizer_fallback (llm : String → Option String)
    (news_data : Option NewsResult) (reddit_data : Option RedditResult)
    (topics : List String) (_hne : topics ≠ [])
    (hfail : llm (fullPrompt news_data reddit_data topics) = none) :
    generate_broadcast_news llm news_data reddit_data topics = fallbackScript topics ∧
    (generate_broadcast_news llm news_data reddit_data topics).data ≠ [] ∧
    ∀ t ∈ topics,
      occursIn t.data (generate_broadcast_news llm news_data reddit_data topics).data := by
  have hfb : generate_broadcast_news llm news_data reddit_data topics =
      fallbackScript topics := by
    simp [generate_broadcast_news, hfail]
  have hdata : (fallbackScript topics).data =
      ("Welcome to your news update. Today we\x27re covering ").data ++
        (pyJoin (", ") topics).data ++
        (". Unfortunately, we\x27re experiencing technical difficulties accessing current news data. Please check back later for updated information on these important topics.").data := by
    simp [fallbackScript, data_append]
  refine ⟨hfb, ?_, ?_⟩
  · rw [hfb, hdata]
    intro h0
    rcases List.append_eq_nil.mp h0 with ⟨h1, h2⟩
    rcases List.append_eq_nil.mp h1 with ⟨h3, h4⟩
    have : ("Welcome to your news update. Today we\x27re covering ").data ≠ [] := by decide
    exact this h3
  · intro t ht
    rw [hfb, hdata]
    exact occursIn_append_right _ _ _
      (occursIn_append_left _ _ _ (occursIn_pyJoin (", ") t topics ht))

/-- Witness for C5: one topic, an always-failing LLM. -/
theorem c5_witness :
    ((["AI"] : List String) ≠ [] ∧
      (fun _ : String => (none : Option String))
          (fullPrompt none none (["AI"])) = none) ∧
    (generate_broadcast_news (fun _ => none) none none (["AI"]) =
        fallbackScript (["AI"]) ∧
      (generate_broadcast_news (fun _ => none) none none (["AI"])).data ≠ [] ∧
      ∀ t ∈ (["AI"] : List String),
        occursIn t.data
          (generate_broadcast_news (fun _ => none) none none (["AI"])).data) :=
  ⟨⟨by decide, rfl⟩,
    c5_summarizer_fallback (fun _ => none) none none (["AI"]) (by decide) rfl⟩

/-- C4: a completed `FreeNewsScraper.scrape_news` call (with an API key set)
produces exactly one entry per input topic, in order, whatever the per-topic
outcomes; every topic has an entry (a summary or an explanatory stub string),
so no per-topic failure is propagated as a request-level error. -/
theorem c4_one_entry_per_topic (key : String) (fetch : String → FetchOutcome)
    (gemini : String → Except String String) (topics : List String) :
    ((scrape_news (some key) fetch gemini topics).news_analysis.map Prod.fst
        = topics) ∧
    ∀ t ∈ topics,
      (t, scrapeTopic gemini (fetch t) t) ∈
        (scrape_news (some key) fetch gemini topics).news_analysis := by
  constructor
  · simp only [scrape_news, List.map_map]
    have hf : (Prod.fst ∘ fun t : String => (t, scrapeTopic gemini (fetch t) t)) = id := rfl
    rw [hf, List.map_id]
  · intro t ht
    simp only [scrape_news]
    exact List.mem_map_of_mem (fun t => (t, scrapeTopic gemini (fetch t) t)) ht

/-- C10: with no NewsAPI key, `FreeNewsScraper.scrape_news` ignores its
network oracles entirely and returns the mock dataset, whose entry for every
requested topic is a non-empty placeholder paragraph mentioning that topic,
in the same `{"news_analysis": ...}` shape as a real result. -/
theorem c10_mock_news (fetch : String → FetchOutcome)
    (gemini : String → Except String String) (topics : List String) :
    scrape_news none fetch gemini topics = createMockNews topics ∧
    ∀ t ∈ topics,
      (t, mockNewsText t) ∈ (scrape_news none fetch gemini topics).news_analysis ∧
        mockNewsText t ≠ ("") ∧ occursIn t.data (mockNewsText t).data := by
  refine ⟨rfl, ?_⟩
  intro t ht
  refine ⟨?_, ?_, ?_⟩
  · show (t, mockNewsText t) ∈ (createMockNews topics).news_analysis
    exact List.mem_map_of_mem (fun t => (t, mockNewsText t)) ht
  · intro h0
    have hd := congrArg String.data h0
    rw [show mockNewsText t = ("Recent developments in ") ++ t ++
        (" continue to evolve. Industry experts are monitoring the situation closely as new information becomes available.") from rfl,
      data_append, data_append] at hd
    rcases List.append_eq_nil.mp hd with ⟨h1, h2⟩
    rcases List.append_eq_nil.mp h1 with ⟨h3, h4⟩
    have : ("Recent developments in ").data ≠ [] := by decide
    exact this h3
  · rw [show mockNewsText t = ("Recent developments in ") ++ t ++
        (" continue to evolve. Industry experts are monitoring the situation closely as new information becomes available.") from rfl,
      data_append, data_append]
    exact occursIn_append_right _ _ _ (occursIn_append_left _ _ _ (occursIn_self t.data))

/-- C8: the health check reports `brightdata` exactly when both BrightData
variables are set, `newsapi` exactly when BrightData is not fully configured
but the NewsAPI key is set, `none_configured` otherwise; it lists
`reddit_scraping` exactly when both Reddit variables are set; and the status
is `healthy` exactly when some news source is configured. -/
theorem c8_health_check (env : Env) :
    ((health_check env).newsSource = ("brightdata") ↔
      env.brightdataApiKey = true ∧ env.brightdataZone = true) ∧
    ((health_check env).newsSource = ("newsapi") ↔
      ¬(env.brightdataApiKey = true ∧ env.brightdataZone = true) ∧
        env.newsapiKey = true) ∧
    ((health_check env).newsSource = ("none_configured") ↔
      ¬(env.brightdataApiKey = true ∧ env.brightdataZone = true) ∧
        env.newsapiKey = false) ∧
    (("reddit_scraping") ∈ (health_check env).features ↔
      env.apiToken = true ∧ env.webUnlockerZone = true) ∧
    ((health_check env).status = ("healthy") ↔
      (env.brightdataApiKey = true ∧ env.brightdataZone = true) ∨
        env.newsapiKey = true) := by
  rcases env with ⟨b1, b2, b3, b4, b5, b6⟩
  cases b1 <;> cases b2 <;> cases b3 <;> cases b4 <;> cases b5 <;> cases b6 <;> decide

/-- C2: in the content category, when BrightData is eligible and its fetch
succeeds, its result is returned and NewsAPI is never invoked; and whenever
NewsAPI is invoked, BrightData was ineligible or had failed. -/
theorem c2_priority_order (env : Env) (bd na : Option NewsResult) :
    (∀ d, env.brightdataApiKey = true → env.brightdataZone = true →
      bd = some d →
        (get_news_data env bd na).fst = Except.ok d ∧
        Provider.newsapi ∉ (get_news_data env bd na).snd) ∧
    (Provider.newsapi ∈ (get_news_data env bd na).snd →
      ¬(env.brightdataApiKey = true ∧ env.brightdataZone = true) ∨ bd = none) := by
  constructor
  · intro d h1 h2 hbd
    subst hbd
    simp [get_news_data, h1, h2]
  · intro hmem
    by_cases hb : env.brightdataApiKey = true ∧ env.brightdataZone = true
    · right
      cases bd with
      | none => rfl
      | some d =>
        exfalso
        simp [get_news_data, hb.1, hb.2] at hmem
    · left
      exact hb

/-- C1 counterexample: with no content provider configured, `get_news_data`
raises HTTP 503 (an error, not a "no data" result), and the whole request
aborts with HTTP 500 — content-category exhaustion alone is user-visible. -/
theorem c1_counterexample :
    (get_news_data ⟨false, false, false, false, false, false⟩ none none).fst =
        Except.error 503 ∧
    generate_news_audio SourceType.news ⟨false, false, false, false, false, false⟩
        none none none (fun _ => some ("script")) true (["AI"]) =
      Except.error 500 :=
  ⟨rfl, rfl⟩

/-- C1 amended: exhausting the *discussion* category yields an empty dict and
does not abort the request, but exhausting the *content* category (every
content provider ineligible or failed) raises HTTP 503, which aborts the
request. -/
theorem c1_amended_exhaustion (env : Env) (bd na : Option NewsResult) :
    (((env.brightdataApiKey && env.brightdataZone) = true → bd = none) →
      (env.newsapiKey = true → na = none) →
      (get_news_data env bd na).fst = Except.error 503) ∧
    (∀ d, (get_news_data env bd na).fst = Except.ok d →
      collectData SourceType.both env bd na none = Except.ok (some d, none)) := by
  constructor
  · intro hbd hna
    by_cases hb : (env.brightdataApiKey && env.brightdataZone) = true
    · rw [hbd hb] at *
      by_cases hn : env.newsapiKey = true
      · rw [hna hn]
        simp [get_news_data, hb, hn]
      · simp [get_news_data, hb, Bool.eq_false_iff.mpr hn]
    · by_cases hn : env.newsapiKey = true
      · rw [hna hn]
        simp [get_news_data, Bool.eq_false_iff.mpr hb, hn]
      · simp [get_news_data, Bool.eq_false_iff.mpr hb, Bool.eq_false_iff.mpr hn]
  · intro d hd
    simp [collectData, hd]

/-- C3 counterexample: in `both` mode with the content category exhausted but
the discussion category succeeding with data, the request still aborts (500),
contradicting "a user-visible failure only when both categories yield
completely empty datasets". -/
theorem c3_counterexample :
    collectData SourceType.both ⟨false, false, false, false, false, false⟩ none none
        (some ⟨[(("AI"), ("Lively discussion about AI."))]⟩) =
      Except.error 503 ∧
    generate_news_audio SourceType.both ⟨false, false, false, false, false, false⟩
        none none (some ⟨[(("AI"), ("Lively discussion about AI."))]⟩)
        (fun _ => some ("script")) true (["AI"]) =
      Except.error 500 :=
  ⟨rfl, rfl⟩

/-- C3 amended: in `both` mode, a discussion failure is absorbed and the
request proceeds on whatever the content category returned; the request
aborts exactly when the content category fails (regardless of discussion
data); and when content succeeded, the pipeline continues through
summarization to audio rendering. -/
theorem c3_amended_degradation (env : Env) (bd na : Option NewsResult)
    (reddit : Option RedditResult) (llm : String → Option String)
    (topics : List String) :
    (∀ d, (get_news_data env bd na).fst = Except.ok d →
      collectData SourceType.both env bd na reddit = Except.ok (some d, reddit)) ∧
    (∀ e, (get_news_data env bd na).fst = Except.error e →
      collectData SourceType.both env bd na reddit = Except.error e ∧
        generate_news_audio SourceType.both env bd na reddit llm true topics =
          Except.error 500) ∧
    (∀ d s, (get_news_data env bd na).fst = Except.ok d → s ≠ ("") →
      llm (fullPrompt (some d) reddit topics) = some s →
      generate_news_audio SourceType.both env bd na reddit llm true topics =
        Except.ok s) := by
  refine ⟨?_, ?_, ?_⟩
  · intro d hd
    simp [collectData, hd]
  · intro e he
    constructor
    · simp [collectData, he]
    · simp [generate_news_audio, collectData, he]
  · intro d s hd hs hllm
    have hcol : collectData SourceType.both env bd na reddit =
        Except.ok (some d, reddit) := by simp [collectData, hd]
    simp [generate_news_audio, hcol, generate_broadcast_news, hllm, hs]

/-- C7: the prompt builder emits one block per requested topic inside the user
prompt; a topic's block includes the content text labeled as official content
exactly when that text is non-empty and not an error marker, includes the
discussion text labeled as discussion content when non-empty, and degrades to
the explicit limited-data paragraph when neither contributes. -/
theorem c7_topic_blocks (news_data : Option NewsResult)
    (reddit_data : Option RedditResult) (topics : List String) (t : String) :
    (t ∈ topics →
      occursIn (buildTopicBlock news_data reddit_data t).data
        (userPrompt news_data reddit_data topics).data) ∧
    (rawNewsText news_data t ≠ ("") → isErrMarker (rawNewsText news_data t) = false →
      (("OFFICIAL NEWS CONTENT:\n") ++ rawNewsText news_data t) ∈
        topicContext news_data reddit_data t) ∧
    ((rawNewsText news_data t = ("") ∨ isErrMarker (rawNewsText news_data t) = true) →
      ∀ s, (("OFFICIAL NEWS CONTENT:\n") ++ s) ∉ topicContext news_data reddit_data t) ∧
    (topicRedditText reddit_data t ≠ ("") →
      (("REDDIT DISCUSSION CONTENT:\n") ++ topicRedditText reddit_data t) ∈
        topicContext news_data reddit_data t) ∧
    (topicNewsText news_data t = ("") → topicRedditText reddit_data t = ("") →
      buildTopicBlock news_data reddit_data t =
        ("TOPIC: ") ++ t ++
          ("\n\nLIMITED DATA: No current news or Reddit data available for this topic.")) := by
  refine ⟨?_, ?_, ?_, ?_, ?_⟩
  · intro ht
    have hne : topics.map (buildTopicBlock news_data reddit_data) ≠ [] := by
      intro h0
      rw [List.map_eq_nil_iff] at h0
      subst h0
      cases ht
    rw [show userPrompt news_data reddit_data topics =
        if topics.map (buildTopicBlock news_data reddit_data) = [] then
          ("Create a brief news segment explaining that current data for topics ") ++
            pyJoin (", ") topics ++
            (" is temporarily unavailable, but provide general context about why these topics are newsworthy.")
        else
          ("Create broadcast segments for these topics using available sources:\n\n") ++
            pyJoin ("\n\n--- NEW TOPIC ---\n\n")
              (topics.map (buildTopicBlock news_data reddit_data)) from rfl,
      if_neg hne, data_append]
    exact occursIn_append_left _ _ _
      (occursIn_pyJoin ("\n\n--- NEW TOPIC ---\n\n") _ _
        (List.mem_map_of_mem (buildTopicBlock news_data reddit_data) ht))
  · intro hn he
    have htn : topicNewsText news_data t = rawNewsText news_data t := by
      simp [topicNewsText, he]
    simp only [topicContext, htn, if_pos hn]
    exact List.mem_append_left _ (List.mem_singleton_self _)
  · intro h0 s
    have htn : topicNewsText news_data t = ("") := by
      rcases h0 with h0 | h0
      · simp [topicNewsText, h0]
      · simp [topicNewsText, h0]
    intro hmem
    simp only [topicContext, htn, ne_eq, not_true_eq_false, if_neg, ite_false,
      List.nil_append] at hmem
    by_cases hr : topicRedditText reddit_data t ≠ ("")
    · rw [if_pos hr, List.mem_singleton] at hmem
      have hd := congrArg String.data hmem
      rw [data_append, data_append,
        show ("OFFICIAL NEWS CONTENT:\n").data =
          'O' :: ("FFICIAL NEWS CONTENT:\n").data from rfl,
        show ("REDDIT DISCUSSION CONTENT:\n").data =
          'R' :: ("EDDIT DISCUSSION CONTENT:\n").data from rfl,
        List.cons_append, List.cons_append] at hd
      have : ('O' : Char) = 'R' := (List.cons.injEq _ _ _ _ ▸ hd).1
      exact absurd this (by decide)
    · rw [if_neg hr] at hmem
      cases hmem
  · intro hr
    simp only [topicContext]
    exact List.mem_append_right _ (by rw [if_pos hr]; exact List.mem_singleton_self _)
  · intro h1 h2
    have hctx : topicContext news_data reddit_data t = [] := by
      simp [topicContext, h1, h2]
    simp [buildTopicBlock, hctx]

end NewsNinja
